import Mathlib

/-!
Verification of the aggregation logic of the aarhus-rental-properties
repository (src/aggregate_data.py) against its natural-language
specification.

The pandas dataframes are shallowly embedded as lists of records.  A
dataframe column that is added at runtime (the "time" column that
get_district_aggregates assigns in place) is modelled as an Option-valued
field that is none until assigned.  Prices are modelled as rationals;
NaN cells produced by pivoting are modelled as none.  Exceptions raised
by the hard-coded column renames and by DataFrame construction with a
mismatched column list are modelled with Except.
-/

namespace Aarhus

/-- Rental type of a listing.  The data model of the repository restricts
the rental_type column to the two values "apartment" and "room". -/
inductive RentalType where
  | apartment
  | room
deriving DecidableEq, Repr

/-- Room-count bucket of a listing.  The rooms column holds the capped
string buckets "1", "2", "3", "4", "+4". -/
inductive Rooms where
  | one
  | two
  | three
  | four
  | plus4
deriving DecidableEq, Repr, Fintype

/-- The string stored in the rooms column for each bucket. -/
def Rooms.val : Rooms → String
  | .one => "1"
  | .two => "2"
  | .three => "3"
  | .four => "4"
  | .plus4 => "+4"

/-- One row of the complete_data table read by aggregate_data.py.
The time field models the column of the same name that
get_district_aggregates assigns in place; it is none until assigned. -/
structure Listing where
  id : Nat
  district : String
  street : String
  rental_type : RentalType
  year : Int
  rooms : Rooms
  rent_per_square_meter : ℚ
  rent_without_expenses : ℚ
  geometry : String
  geometry_street : String
  time : Option String := none
deriving DecidableEq, Repr

/-- pandas drop_duplicates: keep the first occurrence of each value,
preserving the order of first occurrences. -/
def dedupKeepFirst {α : Type} [DecidableEq α] : List α → List α
  | [] => []
  | a :: as => a :: ((dedupKeepFirst as).filter (fun b => !(b == a)))

/-- Code-point comparison of character lists, as Python compares
strings. -/
def lexLe : List Char → List Char → Bool
  | [], _ => true
  | _ :: _, [] => false
  | a :: as, b :: bs => if a < b then true else if b < a then false else lexLe as bs

/-- Code-point comparison of strings. -/
def strLe (a b : String) : Bool := lexLe a.data b.data

/-- Distinct values of a list of strings in ascending order, as produced
by a pandas groupby or pivot index. -/
def sortedDedupStr (l : List String) : List String :=
  List.insertionSort (fun a b => strLe a b = true) (dedupKeepFirst l)

/-- Mean of a column, with the empty group giving NaN (modelled none). -/
def meanOpt (l : List ℚ) : Option ℚ :=
  if l.isEmpty then none else some (l.sum / (l.length : ℚ))

/-- Mean of a nonempty column (street groups are nonempty by
construction; on the empty list this returns the junk value 0). -/
def mean (l : List ℚ) : ℚ := l.sum / (l.length : ℚ)

/-- Round half to even, as numpy/pandas rounding does. -/
def roundHalfEven (q : ℚ) : ℤ :=
  let f := ⌊q⌋
  if q - f < 1/2 then f
  else if 1/2 < q - f then f + 1
  else if f % 2 = 0 then f else f + 1

/-- DataFrame.round(1): round to one decimal place. -/
def roundTo1 (q : ℚ) : ℚ := (roundHalfEven (q * 10) : ℚ) / 10

/-- The lambda of the time-column assignment: "now" for year == 2023 and
"then" for everything else. -/
def timeTag (y : Int) : String := if y = 2023 then "now" else "then"

/-- The effect of the time-column assignment on one row. -/
def setTime (l : Listing) : Listing := { l with time := some (timeTag l.year) }

/-- The in-place assignment complete_data["time"] = complete_data["year"]
.apply(lambda ...): every row gets its time field set. -/
def addTime (t : List Listing) : List Listing := t.map setTime

/-- The distinct (rental_type, time) pairs occurring in the table: these
are the column keys produced by the price pivot.  The hard-coded rename
to 8 value-column names raises unless there are exactly 4 of them. -/
def rtTimeCombos (td : List Listing) : List (RentalType × Option String) :=
  dedupKeepFirst (td.map fun l => (l.rental_type, l.time))

/-- The distinct rooms buckets occurring among year-2023 listings: these
are the column keys of the room-count pivot.  The hard-coded rename to 5
count-column names raises unless there are exactly 5 of them. -/
def rooms2023 (td : List Listing) : List Rooms :=
  dedupKeepFirst ((td.filter (fun l => l.year == 2023)).map (·.rooms))

/-- One cell of the price pivot: the groupby mean of a column over the
rows matching the pivot keys, NaN (none) when the group is empty. -/
def meanWhere (td : List Listing) (p : Listing → Bool) (f : Listing → ℚ) : Option ℚ :=
  meanOpt ((td.filter p).map f)

/-- The four price columns kept after the drop: apartment
rent_per_square_meter for both periods and room rent_without_expenses
for both periods, rounded to one decimal. -/
structure PriceCols where
  district : String
  apartment_rent_sqm_now : Option ℚ
  apartment_rent_sqm_then : Option ℚ
  room_rent_now : Option ℚ
  room_rent_then : Option ℚ
deriving DecidableEq, Repr

/-- The row of the price table for one district. -/
def mkPriceCols (td : List Listing) (d : String) : PriceCols :=
  { district := d
    apartment_rent_sqm_now := Option.map roundTo1 (meanWhere td
      (fun l => l.district == d && l.rental_type == RentalType.apartment
        && l.time == some "now") (·.rent_per_square_meter))
    apartment_rent_sqm_then := Option.map roundTo1 (meanWhere td
      (fun l => l.district == d && l.rental_type == RentalType.apartment
        && l.time == some "then") (·.rent_per_square_meter))
    room_rent_now := Option.map roundTo1 (meanWhere td
      (fun l => l.district == d && l.rental_type == RentalType.room
        && l.time == some "now") (·.rent_without_expenses))
    room_rent_then := Option.map roundTo1 (meanWhere td
      (fun l => l.district == d && l.rental_type == RentalType.room
        && l.time == some "then") (·.rent_without_expenses)) }

/-- One cell of the room-count pivot after fillna(0): the number of
year-2023 listings of a district in a rooms bucket.  Note that the code
applies no rental_type filter here. -/
def countRooms (td : List Listing) (d : String) (r : Rooms) : Nat :=
  (td.filter (fun l => l.year == 2023 && l.district == d && l.rooms == r)).length

/-- The five room-count columns of one district.  The pivot orders the
bucket labels as strings, so "+4" sorts first, and the hard-coded
positional rename therefore stores the "+4" bucket under
apartments_w_1_room, the "1" bucket under apartments_w_2_rooms, and so
on. -/
structure CountCols where
  district : String
  apartments_w_1_room : Nat
  apartments_w_2_rooms : Nat
  apartments_w_3_rooms : Nat
  apartments_w_4_rooms : Nat
  apartments_w_plus4_rooms : Nat
deriving DecidableEq, Repr

/-- The row of the room-count table for one district. -/
def mkCountCols (td : List Listing) (d : String) : CountCols :=
  { district := d
    apartments_w_1_room := countRooms td d Rooms.plus4
    apartments_w_2_rooms := countRooms td d Rooms.one
    apartments_w_3_rooms := countRooms td d Rooms.two
    apartments_w_4_rooms := countRooms td d Rooms.three
    apartments_w_plus4_rooms := countRooms td d Rooms.four }

/-- One row of district_aggregates.csv. -/
structure DistrictRow where
  district : String
  apartment_rent_sqm_now : Option ℚ
  apartment_rent_sqm_then : Option ℚ
  room_rent_now : Option ℚ
  room_rent_then : Option ℚ
  apartments_w_1_room : Nat
  apartments_w_2_rooms : Nat
  apartments_w_3_rooms : Nat
  apartments_w_4_rooms : Nat
  apartments_w_plus4_rooms : Nat
  geometry : String
deriving DecidableEq, Repr

/-- Assembling one output row from a merged price/count pair and a
matching (district, geometry) pair. -/
def mkDistrictRow (pc : PriceCols × CountCols) (geo : String) : DistrictRow :=
  { district := pc.1.district
    apartment_rent_sqm_now := pc.1.apartment_rent_sqm_now
    apartment_rent_sqm_then := pc.1.apartment_rent_sqm_then
    room_rent_now := pc.1.room_rent_now
    room_rent_then := pc.1.room_rent_then
    apartments_w_1_room := pc.2.apartments_w_1_room
    apartments_w_2_rooms := pc.2.apartments_w_2_rooms
    apartments_w_3_rooms := pc.2.apartments_w_3_rooms
    apartments_w_4_rooms := pc.2.apartments_w_4_rooms
    apartments_w_plus4_rooms := pc.2.apartments_w_plus4_rooms
    geometry := geo }

/-- The (district, geometry) pairs of complete_data after
drop_duplicates, in first-occurrence order. -/
def geoPairs (td : List Listing) : List (String × String) :=
  dedupKeepFirst (td.map fun l => (l.district, l.geometry))

/-- The index of the price pivot: the sorted distinct districts of the
whole table. -/
def districtsOf (td : List Listing) : List String :=
  sortedDedupStr (td.map (·.district))

/-- The index of the room-count pivot: the sorted distinct districts of
the year-2023 listings. -/
def d2023Of (td : List Listing) : List String :=
  sortedDedupStr ((td.filter (fun l => l.year == 2023)).map (·.district))

/-- The price table: one row per district of the whole table. -/
def priceRowsOf (td : List Listing) : List PriceCols :=
  (districtsOf td).map (mkPriceCols td)

/-- The room-count table: one row per district of the 2023 listings. -/
def countRowsOf (td : List Listing) : List CountCols :=
  (d2023Of td).map (mkCountCols td)

/-- The inner merge of the price table with the room-count table on the
district key. -/
def mergedOf (td : List Listing) : List (PriceCols × CountCols) :=
  (priceRowsOf td).flatMap fun pr =>
    ((countRowsOf td).filter (fun cr => cr.district == pr.district)).map fun cr => (pr, cr)

/-- The inner merge of the price/count table with the de-duplicated
(district, geometry) pairs on the district key: the output rows. -/
def districtRowsOf (td : List Listing) : List DistrictRow :=
  (mergedOf td).flatMap fun pc =>
    ((geoPairs td).filter (fun g => g.1 == pc.1.district)).map fun g =>
      mkDistrictRow pc g.2

/-- The body of get_district_aggregates after the time column has been
assigned: group/pivot prices, rename (raising on a width mismatch),
drop, round, count rooms per district for 2023 listings, pivot and
rename (again raising on a width mismatch), fillna(0), then two inner
merges on the district key (room counts, then de-duplicated geometry). -/
def districtAggregatesRun (td : List Listing) : Except String (List DistrictRow) :=
  if (rtTimeCombos td).length ≠ 4 then
    .error "Length mismatch: price pivot does not have 8 value columns"
  else if (rooms2023 td).length ≠ 5 then
    .error "Length mismatch: rooms pivot does not have 5 value columns"
  else
    .ok (districtRowsOf td)

/-- get_district_aggregates.  Its first line mutates the shared input
table in place by assigning the time column, so the model returns both
the computed aggregate (or the raised exception) and the post-state of
the shared table. -/
def getDistrictAggregates (t : List Listing) :
    Except String (List DistrictRow) × List Listing :=
  (districtAggregatesRun (addTime t), addTime t)

/-- One row of the per-street groupby table inside
get_street_aggregates. -/
structure StreetRow where
  street : String
  rent_per_square_meter : ℚ
  rent_without_expenses : ℚ
deriving DecidableEq, Repr

/-- The rows of street_data that are not the target street, each paired
with the abs_diff column: the absolute difference of its
rent_per_square_meter to the target street's. -/
def absDiffRows (street_data : List StreetRow) (target : StreetRow) :
    List (StreetRow × ℚ) :=
  (street_data.filter (fun r => !(r.street == target.street))).map fun r =>
    (r, |r.rent_per_square_meter - target.rent_per_square_meter|)

/-- The sort key order of sort_values(by="abs_diff", ascending=True):
non-decreasing in the abs_diff component. -/
def absDiffLe (x y : StreetRow × ℚ) : Prop := x.2 ≤ y.2

instance : DecidableRel absDiffLe := fun x y => inferInstanceAs (Decidable (x.2 ≤ y.2))

/-- The most similar streets of one target street: the other rows sorted
ascending by abs_diff, truncated by head(n_similar_streets).

The code calls sort_values with its default kind (quicksort), which
guarantees the key order of the result but no particular order among
rows with equal abs_diff.  The embedding realizes the sort as insertion
sort by the key, which is one definite sorted permutation; the
properties proved about similarList downstream (membership, length,
padding) are invariant under permuting rows with equal keys, so they do
not depend on this choice.  The relative order of tied rows itself is
an unspecified implementation detail of the library sort and is not a
property of this model. -/
def similarList (street_data : List StreetRow) (n : Nat) (target : StreetRow) :
    List StreetRow :=
  ((List.insertionSort absDiffLe (absDiffRows street_data target)).take n).map (·.1)

/-- The most_similar_streets column: one similarity list per row of
street_data, in row order. -/
def similarLists (street_data : List StreetRow) (n : Nat) : List (List StreetRow) :=
  street_data.map (similarList street_data n)

/-- The column names for unpacking most_similar_streets.  The code
builds them with range(5), so there are always exactly five of them,
whatever n_similar_streets is. -/
def newColumnsStreets : List String :=
  (List.range 5).map fun i => "most_similar_" ++ toString (i + 1)

/-- The column names for unpacking most_similar_rents, likewise
hard-coded to five. -/
def newColumnsRents : List String :=
  (List.range 5).map fun i => "most_similar_rent_" ++ toString (i + 1)

/-- Width pandas infers for a DataFrame built from a list of lists: the
longest row. -/
def maxLen {α : Type} (lists : List (List α)) : Nat :=
  lists.foldr (fun l m => max l.length m) 0

/-- Padding one row of such a DataFrame to the inferred width with NaN
(none) cells. -/
def padToLen {α : Type} (w : Nat) (l : List α) : List (Option α) :=
  l.map some ++ List.replicate (w - l.length) none

/-- pd.DataFrame(lists, columns=cols) for a list of lists: with no rows
the frame is empty; otherwise construction raises unless the inferred
width (the longest row) equals the number of column names, and shorter
rows are padded with NaN. -/
def pdFrameOfLists {α : Type} (lists : List (List α)) (cols : List String) :
    Except String (List (List (Option α))) :=
  if lists.isEmpty then .ok []
  else if maxLen lists = cols.length then .ok (lists.map (padToLen cols.length))
  else .error "columns passed, passed data had different number of columns"

/-- One row of the output of similar_rent_prices: the street_data
columns followed by the five unpacked most_similar columns and the five
unpacked most_similar_rent columns. -/
structure UnpackedStreetRow where
  street : String
  rent_per_square_meter : ℚ
  rent_without_expenses : ℚ
  most_similar : List (Option String)
  most_similar_rent : List (Option ℚ)
deriving DecidableEq, Repr

/-- similar_rent_prices: compute the similarity lists, unpack the street
names and the rents into the hard-coded five columns each (raising when
the DataFrame construction width check fails), and concatenate the new
columns onto street_data row by row. -/
def similarRentPrices (street_data : List StreetRow) (n : Nat) :
    Except String (List UnpackedStreetRow) :=
  match pdFrameOfLists ((similarLists street_data n).map (·.map (·.street)))
      newColumnsStreets with
  | .error e => .error e
  | .ok us =>
    match pdFrameOfLists ((similarLists street_data n).map (·.map (·.rent_per_square_meter)))
        newColumnsRents with
    | .error e => .error e
    | .ok rs =>
      .ok ((street_data.zip (us.zip rs)).map fun p =>
        { street := p.1.street
          rent_per_square_meter := p.1.rent_per_square_meter
          rent_without_expenses := p.1.rent_without_expenses
          most_similar := p.2.1
          most_similar_rent := p.2.2 })

/-- One row of street_aggregates.csv. -/
structure StreetAggRow where
  street : String
  rent_per_square_meter : ℚ
  rent_without_expenses : ℚ
  most_similar : List (Option String)
  most_similar_rent : List (Option ℚ)
  count : Nat
  geometry_street : String
deriving DecidableEq, Repr

/-- The listings kept by get_street_aggregates: year 2023 and rental
type apartment. -/
def streetFiltered (t : List Listing) : List Listing :=
  (t.filter (fun l => l.year == 2023)).filter
    (fun l => l.rental_type == RentalType.apartment)

/-- The sorted distinct streets of the filtered listings: the groupby
keys. -/
def streetKeys (t : List Listing) : List String :=
  sortedDedupStr ((streetFiltered t).map (·.street))

/-- The per-street groupby table: mean rent_per_square_meter and mean
rent_without_expenses of the filtered listings of each street. -/
def streetTable (t : List Listing) : List StreetRow :=
  (streetKeys t).map fun s =>
    let g := (streetFiltered t).filter (fun l => l.street == s)
    { street := s
      rent_per_square_meter := mean (g.map (·.rent_per_square_meter))
      rent_without_expenses := mean (g.map (·.rent_without_expenses)) }

/-- The per-street listing counts: groupby street over the filtered
listings, counting the (never missing) id column. -/
def streetCounts (t : List Listing) : List (String × Nat) :=
  (streetKeys t).map fun s =>
    (s, ((streetFiltered t).filter (fun l => l.street == s)).length)

/-- The (street, geometry_street) pairs of the filtered listings after
drop_duplicates, in first-occurrence order. -/
def streetGeoPairs (t : List Listing) : List (String × String) :=
  dedupKeepFirst ((streetFiltered t).map fun l => (l.street, l.geometry_street))

/-- The two inner merges of get_street_aggregates: joining the listing
count and the de-duplicated street geometry onto one unpacked row by
the street key. -/
def mergeStreetRow (t : List Listing) (r : UnpackedStreetRow) : List StreetAggRow :=
  ((streetCounts t).filter (fun c => c.1 == r.street)).flatMap fun c =>
    ((streetGeoPairs t).filter (fun g => g.1 == r.street)).map fun g =>
      { street := r.street
        rent_per_square_meter := r.rent_per_square_meter
        rent_without_expenses := r.rent_without_expenses
        most_similar := r.most_similar
        most_similar_rent := r.most_similar_rent
        count := c.2
        geometry_street := g.2 }

/-- get_street_aggregates: filter to 2023 apartments, group by street
with the two means, run similar_rent_prices, then inner-merge the
listing counts and the de-duplicated street geometry on the street
key. -/
def getStreetAggregates (t : List Listing) (n : Nat) :
    Except String (List StreetAggRow) :=
  match similarRentPrices (streetTable t) n with
  | .error e => .error e
  | .ok unpacked => .ok (unpacked.flatMap (mergeStreetRow t))

/-- Convenience constructor for a listing (the time column is absent
until the district aggregator assigns it). -/
def mkListing (id : Nat) (district street : String) (rt : RentalType)
    (year : Int) (rooms : Rooms) (sqm rwe : ℚ) (geo geos : String) : Listing :=
  { id := id, district := district, street := street, rental_type := rt,
    year := year, rooms := rooms, rent_per_square_meter := sqm,
    rent_without_expenses := rwe, geometry := geo, geometry_street := geos }

/-- A small complete_data table covering all four (rental_type, time)
combinations and all five rooms buckets, in which district A carries two
distinct geometry strings. -/
def exTable1 : List Listing :=
  [ mkListing 1 "A" "s1" RentalType.apartment 2023 Rooms.one 10 5000 "gA" "g1",
    mkListing 2 "A" "s1" RentalType.apartment 2022 Rooms.two 11 5100 "gA" "g1",
    mkListing 3 "A" "s2" RentalType.room 2023 Rooms.two 12 3000 "gA" "g2",
    mkListing 4 "A" "s2" RentalType.room 2021 Rooms.three 13 3100 "gA2" "g2",
    mkListing 5 "B" "s3" RentalType.apartment 2023 Rooms.three 14 6000 "gB" "g3",
    mkListing 6 "B" "s3" RentalType.room 2023 Rooms.four 15 2500 "gB" "g3",
    mkListing 7 "B" "s4" RentalType.apartment 2023 Rooms.plus4 16 7000 "gB" "g4" ]

/-- Like exTable1 but with one geometry string per district, and with an
extra district C whose only listing is from 2022 (so C is present in the
price table but absent from the room-count table). -/
def exTable2 : List Listing :=
  [ mkListing 1 "A" "s1" RentalType.apartment 2023 Rooms.one 10 5000 "gA" "g1",
    mkListing 2 "A" "s1" RentalType.apartment 2022 Rooms.two 11 5100 "gA" "g1",
    mkListing 3 "A" "s2" RentalType.room 2023 Rooms.two 12 3000 "gA" "g2",
    mkListing 4 "A" "s2" RentalType.room 2021 Rooms.three 13 3100 "gA" "g2",
    mkListing 5 "B" "s3" RentalType.apartment 2023 Rooms.three 14 6000 "gB" "g3",
    mkListing 6 "B" "s3" RentalType.room 2023 Rooms.four 15 2500 "gB" "g3",
    mkListing 7 "B" "s4" RentalType.apartment 2023 Rooms.plus4 16 7000 "gB" "g4",
    mkListing 8 "C" "s7" RentalType.apartment 2022 Rooms.one 9 4000 "gC" "g7" ]

/-- A table with six distinct streets of 2023 apartment listings, so
that the street aggregator's hard-coded five-column unpacking
succeeds. -/
def exTable6 : List Listing :=
  [ mkListing 1 "A" "s1" RentalType.apartment 2023 Rooms.one 10 5000 "gA" "g1",
    mkListing 2 "A" "s2" RentalType.apartment 2023 Rooms.two 11 5100 "gA" "g2",
    mkListing 3 "A" "s3" RentalType.apartment 2023 Rooms.three 13 5200 "gA" "g3",
    mkListing 4 "A" "s4" RentalType.apartment 2023 Rooms.four 16 5300 "gA" "g4",
    mkListing 5 "A" "s5" RentalType.apartment 2023 Rooms.plus4 20 5400 "gA" "g5",
    mkListing 6 "A" "s6" RentalType.apartment 2023 Rooms.one 25 5500 "gA" "g6",
    mkListing 7 "A" "s6" RentalType.apartment 2023 Rooms.two 27 5600 "gA" "g6" ]

/-- The street table of the spec's worked similarity example: four
streets with mean price-per-area 10, 12, 30 and 11. -/
def exStreets : List StreetRow :=
  [ { street := "10", rent_per_square_meter := 10, rent_without_expenses := 0 },
    { street := "12", rent_per_square_meter := 12, rent_without_expenses := 0 },
    { street := "30", rent_per_square_meter := 30, rent_without_expenses := 0 },
    { street := "11", rent_per_square_meter := 11, rent_without_expenses := 0 } ]

/-- The rows of an Except-valued aggregate, with the error case giving
the empty table. -/
def okRows {β : Type} (x : Except String (List β)) : List β :=
  match x with
  | .ok rs => rs
  | .error _ => []

/-- Placeholder district row used as a getD default when indexing into
an aggregate. -/
def noRowD : DistrictRow :=
  { district := "", apartment_rent_sqm_now := none, apartment_rent_sqm_then := none,
    room_rent_now := none, room_rent_then := none, apartments_w_1_room := 0,
    apartments_w_2_rooms := 0, apartments_w_3_rooms := 0, apartments_w_4_rooms := 0,
    apartments_w_plus4_rooms := 0, geometry := "" }

/-- Placeholder street aggregate row used as a getD default. -/
def noRowS : StreetAggRow :=
  { street := "", rent_per_square_meter := 0, rent_without_expenses := 0,
    most_similar := [], most_similar_rent := [], count := 0, geometry_street := "" }

/-! ### Basic lemmas about the embedding -/

@[simp] lemma setTime_id (l : Listing) : (setTime l).id = l.id := rfl

@[simp] lemma setTime_district (l : Listing) : (setTime l).district = l.district := rfl

@[simp] lemma setTime_street (l : Listing) : (setTime l).street = l.street := rfl

@[simp] lemma setTime_rental_type (l : Listing) : (setTime l).rental_type = l.rental_type := rfl

@[simp] lemma setTime_year (l : Listing) : (setTime l).year = l.year := rfl

@[simp] lemma setTime_rooms (l : Listing) : (setTime l).rooms = l.rooms := rfl

@[simp] lemma setTime_sqm (l : Listing) :
    (setTime l).rent_per_square_meter = l.rent_per_square_meter := rfl

@[simp] lemma setTime_rwe (l : Listing) :
    (setTime l).rent_without_expenses = l.rent_without_expenses := rfl

@[simp] lemma setTime_geometry (l : Listing) : (setTime l).geometry = l.geometry := rfl

@[simp] lemma setTime_geometry_street (l : Listing) :
    (setTime l).geometry_street = l.geometry_street := rfl

@[simp] lemma setTime_time (l : Listing) : (setTime l).time = some (timeTag l.year) := rfl

lemma dedupKeepFirst_nodup {α : Type} [DecidableEq α] (l : List α) :
    (dedupKeepFirst l).Nodup := by
  induction l with
  | nil => simp [dedupKeepFirst]
  | cons a as ih =>
    simp only [dedupKeepFirst, List.nodup_cons]
    refine ⟨fun hmem => ?_, ih.filter _⟩
    have := (List.mem_filter.mp hmem).2
    simp at this

lemma mem_dedupKeepFirst {α : Type} [DecidableEq α] {a : α} {l : List α} :
    a ∈ dedupKeepFirst l ↔ a ∈ l := by
  induction l with
  | nil => simp [dedupKeepFirst]
  | cons b bs ih =>
    simp only [dedupKeepFirst, List.mem_cons, List.mem_filter]
    by_cases hab : a = b
    · simp [hab]
    · simp [hab, ih]

lemma sortedDedupStr_nodup (l : List String) : (sortedDedupStr l).Nodup :=
  ((List.perm_insertionSort _ _).nodup_iff).mpr (dedupKeepFirst_nodup l)

lemma mem_sortedDedupStr {a : String} {l : List String} :
    a ∈ sortedDedupStr l ↔ a ∈ l := by
  rw [sortedDedupStr, (List.perm_insertionSort _ _).mem_iff, mem_dedupKeepFirst]

/-- In a list whose keys are pairwise distinct, at most one element
matches a given key. -/
lemma length_filter_key_le_one {α β : Type} [DecidableEq α] (key : β → α)
    (l : List β) (h : (l.map key).Nodup) (k : α) :
    (l.filter (fun x => key x == k)).length ≤ 1 := by
  induction l with
  | nil => simp
  | cons b bs ih =>
    simp only [List.map_cons, List.nodup_cons] at h
    by_cases hb : key b = k
    · have hnone : bs.filter (fun x => key x == k) = [] := by
        rw [List.filter_eq_nil_iff]
        intro x hx hkx
        have hk : key x = k := by simpa using hkx
        have hbx : key b = key x := hb.trans hk.symm
        exact h.1 (hbx ▸ List.mem_map_of_mem key hx)
      simp [List.filter_cons, hb, hnone]
    · simpa [List.filter_cons, hb] using ih h.2

/-- Filtering a duplicate-free list for one value gives that value or
nothing. -/
lemma filter_beq_of_nodup {α : Type} [DecidableEq α] (l : List α) (h : l.Nodup) (d : α) :
    l.filter (fun x => x == d) = if d ∈ l then [d] else [] := by
  induction l with
  | nil => simp
  | cons a as ih =>
    simp only [List.nodup_cons] at h
    by_cases had : a = d
    · subst had
      have : as.filter (fun x => x == a) = [] := by
        rw [List.filter_eq_nil_iff]
        intro x hx hxa
        exact h.1 (by simpa using (by simpa using hxa) ▸ hx)
      simp [List.filter_cons, this]
    · simp [List.filter_cons, had, ih h.2, Ne.symm had]

/-- Lists of length at most one have no duplicates. -/
lemma nodup_of_length_le_one {α : Type} {l : List α} (h : l.length ≤ 1) : l.Nodup := by
  match l with
  | [] => simp
  | [a] => simp
  | a :: b :: l => simp at h

/-- An inner join on a key that is duplicate-free on the left side and
matches at most one right row per key produces duplicate-free output
keys. -/
lemma nodup_join {β γ δ α : Type} [DecidableEq α] (rows : List β) (tbl : List γ)
    (keyB : β → α) (keyG : γ → α) (mk : β → γ → δ) (keyD : δ → α)
    (hrows : (rows.map keyB).Nodup)
    (hlen : ∀ b, (tbl.filter (fun c => keyG c == keyB b)).length ≤ 1)
    (hmk : ∀ b c, keyD (mk b c) = keyB b) :
    ((rows.flatMap fun b => (tbl.filter (fun c => keyG c == keyB b)).map (mk b)).map
      keyD).Nodup := by
  induction rows with
  | nil => simp
  | cons b bs ih =>
    simp only [List.map_cons, List.nodup_cons] at hrows
    rw [List.flatMap_cons, List.map_append]
    apply List.Nodup.append
    · apply nodup_of_length_le_one
      simpa using hlen b
    · exact ih hrows.2
    · intro x hx hx2
      simp only [List.mem_map, List.mem_filter] at hx
      obtain ⟨c, ⟨w, ⟨_, _⟩, hwc⟩, hxc⟩ := hx
      simp only [List.mem_map, List.mem_flatMap, List.mem_filter] at hx2
      obtain ⟨y, ⟨b2, hb2, c2, ⟨_, _⟩, hyc⟩, hxy⟩ := hx2
      apply hrows.1
      have h1 : x = keyB b := by rw [← hxc, ← hwc, hmk]
      have h2 : x = keyB b2 := by rw [← hxy, ← hyc, hmk]
      have hbb : keyB b = keyB b2 := by rw [← h1, h2]
      rw [hbb]
      exact List.mem_map_of_mem keyB hb2

/-- In a duplicate-free list in which all rows matching a predicate are
equal, at most one row matches. -/
lemma length_filter_le_one_of_eq {β : Type} (l : List β) (p : β → Bool)
    (hnd : l.Nodup)
    (h : ∀ x ∈ l, ∀ y ∈ l, p x = true → p y = true → x = y) :
    (l.filter p).length ≤ 1 := by
  match hfl : l.filter p with
  | [] => simp
  | [x] => simp
  | x :: y :: rest =>
    exfalso
    have hx : x ∈ l.filter p := by rw [hfl]; exact List.mem_cons_self x _
    have hy : y ∈ l.filter p := by rw [hfl]; exact List.mem_cons_of_mem x (List.mem_cons_self y _)
    have hxy : x = y :=
      h x (List.mem_of_mem_filter hx) y (List.mem_of_mem_filter hy)
        (List.of_mem_filter hx) (List.of_mem_filter hy)
    have : (l.filter p).Nodup := hnd.filter p
    rw [hfl] at this
    simp [hxy] at this

/-! ### Frame lemmas: the time-column assignment does not disturb the
street aggregation pipeline -/

lemma streetFiltered_addTime (t : List Listing) :
    streetFiltered (addTime t) = (streetFiltered t).map setTime := by
  simp only [streetFiltered, addTime, List.filter_map]
  rfl

lemma streetKeys_addTime (t : List Listing) : streetKeys (addTime t) = streetKeys t := by
  simp only [streetKeys, streetFiltered_addTime, List.map_map]
  rfl

lemma streetTable_addTime (t : List Listing) : streetTable (addTime t) = streetTable t := by
  simp only [streetTable, streetKeys_addTime, streetFiltered_addTime,
    List.filter_map, List.map_map]
  rfl

lemma streetCounts_addTime (t : List Listing) : streetCounts (addTime t) = streetCounts t := by
  simp only [streetCounts, streetKeys_addTime, streetFiltered_addTime,
    List.filter_map, List.length_map]
  rfl

lemma streetGeoPairs_addTime (t : List Listing) :
    streetGeoPairs (addTime t) = streetGeoPairs t := by
  simp only [streetGeoPairs, streetFiltered_addTime, List.map_map]
  rfl

section
attribute [local semireducible] Rat.add Rat.sub Rat.mul Rat.inv

/-- Claim C5: for every listing, the district aggregator assigns the
time tag "now" exactly when the listing's year is 2023 and "then" in
every other case. -/
theorem claim5_time_tag_now_iff :
    ∀ t : List Listing,
      ((getDistrictAggregates t).2).map (·.time) =
        t.map (fun l => some (timeTag l.year)) ∧
      ∀ y : Int, (timeTag y = "now" ↔ y = 2023) ∧ (timeTag y = "then" ↔ ¬ y = 2023) := by
  intro t
  constructor
  · simp only [getDistrictAggregates, addTime, List.map_map]
    rfl
  · intro y
    by_cases hy : y = 2023 <;> simp [timeTag, hy]

/-- Claim C7 counterexample: the district aggregator does not leave the
shared input table unchanged — its first statement assigns the time
column in place, so the table differs after the call. -/
theorem claim7_counterexample : (getDistrictAggregates exTable2).2 ≠ exTable2 := by decide

/-- Claim C7 amended: the district aggregator mutates the shared table
(it assigns the time column in place), but the street aggregator reads
none of the affected data, so running it on the mutated table gives the
same street output as running it on the original table. -/
theorem claim7_amended_street_output_unaffected :
    ∀ (t : List Listing) (n : Nat),
      getStreetAggregates ((getDistrictAggregates t).2) n = getStreetAggregates t n := by
  intro t n
  show getStreetAggregates (addTime t) n = getStreetAggregates t n
  have hmerge : mergeStreetRow (addTime t) = mergeStreetRow t := by
    funext r
    simp only [mergeStreetRow, streetCounts_addTime, streetGeoPairs_addTime]
  simp only [getStreetAggregates, streetTable_addTime, hmerge]

/-- Claim C6 counterexample: on a table in which district A carries two
distinct geometry strings, the district aggregate holds two rows for A,
so the output does not contain exactly one row per district. -/
theorem claim6_counterexample :
    (okRows (getDistrictAggregates exTable1).1).map DistrictRow.district = ["A", "A", "B"] ∧
    ¬ ((okRows (getDistrictAggregates exTable1).1).map DistrictRow.district).Nodup := by
  constructor
  · decide
  · decide

/-- Claim C1, code-bug evidence: the room-count block filters only on
year == 2023 and never on rental_type, so for district A of exTable2
(one 2023 apartment listing and one 2023 room listing) the five
room-count columns sum to 2 while the table holds exactly one 2023
apartment listing in A — the columns named apartments_w_* count room
rentals as well. -/
theorem claim1_room_counts_include_rooms :
    ((okRows (getDistrictAggregates exTable2).1).getD 0 noRowD).district = "A" ∧
    ((okRows (getDistrictAggregates exTable2).1).getD 0 noRowD).apartments_w_1_room +
      ((okRows (getDistrictAggregates exTable2).1).getD 0 noRowD).apartments_w_2_rooms +
      ((okRows (getDistrictAggregates exTable2).1).getD 0 noRowD).apartments_w_3_rooms +
      ((okRows (getDistrictAggregates exTable2).1).getD 0 noRowD).apartments_w_4_rooms +
      ((okRows (getDistrictAggregates exTable2).1).getD 0 noRowD).apartments_w_plus4_rooms = 2 ∧
    (exTable2.filter (fun l =>
      (l.year == 2023 && l.rental_type == RentalType.apartment) && l.district == "A")).length
      = 1 := by
  refine ⟨by decide, by decide, by decide⟩

/-- Claim C3 counterexample: with n_similar_streets = 1 on a table of
three streets the unpacking still builds five column names, and the
DataFrame construction raises because the data is one column wide while
five names are passed — so the output does not consist of exactly N
similarity columns for N = 1. -/
theorem claim3_counterexample :
    getStreetAggregates exTable2 1 =
      Except.error "columns passed, passed data had different number of columns" ∧
    newColumnsStreets.length ≠ 1 ∧ newColumnsRents.length ≠ 1 := by
  refine ⟨rfl, by decide, by decide⟩

/-- The street column of the per-street groupby table is the list of
groupby keys. -/
lemma streetTable_map_street (t : List Listing) :
    (streetTable t).map (·.street) = streetKeys t := by
  rw [streetTable, List.map_map]
  exact List.map_id _

/-- The street column of the per-street groupby table has no
duplicates. -/
lemma streetTable_street_nodup (t : List Listing) :
    ((streetTable t).map (·.street)).Nodup := by
  rw [streetTable_map_street]
  exact sortedDedupStr_nodup _

/-- Claim C4: a street's similarity list never contains the street
itself, and its length is min(N, number of streets − 1). -/
theorem claim4_similar_excludes_self_length :
    ∀ (t : List Listing) (n i : Nat) (h : i < (streetTable t).length),
      (∀ r ∈ similarList (streetTable t) n ((streetTable t).get ⟨i, h⟩),
          ¬ r.street = ((streetTable t).get ⟨i, h⟩).street) ∧
      (similarList (streetTable t) n ((streetTable t).get ⟨i, h⟩)).length =
        min n ((streetTable t).length - 1) := by
  intro t n i h
  constructor
  · intro r hr
    simp only [similarList, List.mem_map] at hr
    obtain ⟨x, hx, rfl⟩ := hr
    have hx2 : x ∈ absDiffRows (streetTable t) ((streetTable t).get ⟨i, h⟩) :=
      (List.perm_insertionSort _ _).mem_iff.mp (List.mem_of_mem_take hx)
    simp only [absDiffRows, List.mem_map, List.mem_filter] at hx2
    obtain ⟨q, ⟨_, hq⟩, rfl⟩ := hx2
    simpa using hq
  · have hone : ((streetTable t).filter
        (fun r => r.street == ((streetTable t).get ⟨i, h⟩).street)).length = 1 := by
      rw [← List.countP_eq_length_filter]
      have hcp : List.countP (fun r => r.street == ((streetTable t).get ⟨i, h⟩).street)
          (streetTable t) =
          List.countP (fun s => s == ((streetTable t).get ⟨i, h⟩).street)
            ((streetTable t).map (·.street)) := by
        rw [List.countP_map]
        rfl
      rw [hcp]
      have hmem : ((streetTable t).get ⟨i, h⟩).street ∈ (streetTable t).map (·.street) :=
        List.mem_map_of_mem _ (List.get_mem _ i h)
      have := List.count_eq_one_of_mem (streetTable_street_nodup t) hmem
      simpa [List.count] using this
    have hsplit := List.length_eq_length_filter_add (l := streetTable t)
      (fun r => r.street == ((streetTable t).get ⟨i, h⟩).street)
    rw [similarList, List.length_map, List.length_take,
      List.length_insertionSort, absDiffRows, List.length_map]
    have hlen : ((streetTable t).filter
        (fun r => !(r.street == ((streetTable t).get ⟨i, h⟩).street))).length =
        (streetTable t).length - 1 := by
      omega
    rw [hlen]

/-- Claim C4 witness: on exTable2 (three streets) with N = 2, the first
street's similarity list has length min 2 (3 − 1) = 2. -/
theorem claim4_witness :
    (similarList (streetTable exTable2) 2
        ((streetTable exTable2).get ⟨0, by decide⟩)).length =
      min 2 ((streetTable exTable2).length - 1) :=
  (claim4_similar_excludes_self_length exTable2 2 0 (by decide)).2

end

/-- Every row of a list-of-lists DataFrame is at most as long as the
inferred width. -/
lemma le_maxLen {α : Type} (lists : List (List α)) : ∀ l ∈ lists, l.length ≤ maxLen lists := by
  induction lists with
  | nil => simp
  | cons a as ih =>
    intro l hl
    rcases List.mem_cons.mp hl with rfl | hl
    · exact le_max_left _ _
    · exact le_trans (ih l hl) (le_max_right _ _)

/-- Mapping over the rows preserves the inferred width. -/
lemma maxLen_map_lengths {α β : Type} (f : α → β) (lists : List (List α)) :
    maxLen (lists.map (fun l => l.map f)) = maxLen lists := by
  induction lists with
  | nil => rfl
  | cons a as ih =>
    simp only [List.map_cons, maxLen, List.foldr_cons, List.length_map]
    exact congrArg (max a.length) ih

/-- Zipping a list with two mapped copies of itself and mapping a
combining function is a single map. -/
lemma map_zip_map_map {α β γ δ : Type} (l : List α) (f : α → β) (g : α → γ)
    (G : α × β × γ → δ) :
    ((l.zip ((l.map f).zip (l.map g))).map G) = l.map (fun a => G (a, f a, g a)) := by
  induction l with
  | nil => rfl
  | cons a as ih => simp only [List.map_cons, List.zip_cons_cons, ih]

/-- Characterization of a successful DataFrame construction: the rows
are padded to the column count, and either there were no rows or the
inferred width equals the column count. -/
lemma pdFrameOfLists_ok {α : Type} {lists : List (List α)} {cols : List String}
    {out : List (List (Option α))} (h : pdFrameOfLists lists cols = .ok out) :
    out = lists.map (padToLen cols.length) ∧ (lists = [] ∨ maxLen lists = cols.length) := by
  unfold pdFrameOfLists at h
  split_ifs at h with h1 h2
  · cases h
    obtain rfl := List.isEmpty_iff.mp h1
    exact ⟨rfl, Or.inl rfl⟩
  · cases h
    exact ⟨rfl, Or.inr h2⟩

/-- Characterization of a successful similar_rent_prices call: each
output row is its street_data row extended with the two padded
five-slot unpackings of its similarity list. -/
lemma similarRentPrices_ok {sd : List StreetRow} {n : Nat} {out : List UnpackedStreetRow}
    (h : similarRentPrices sd n = .ok out) :
    out = sd.map (fun s =>
      { street := s.street
        rent_per_square_meter := s.rent_per_square_meter
        rent_without_expenses := s.rent_without_expenses
        most_similar := padToLen 5 ((similarList sd n s).map (·.street))
        most_similar_rent :=
          padToLen 5 ((similarList sd n s).map (·.rent_per_square_meter)) }) ∧
    (sd = [] ∨ maxLen (similarLists sd n) = 5) := by
  unfold similarRentPrices at h
  cases hu : pdFrameOfLists ((similarLists sd n).map (·.map (·.street))) newColumnsStreets with
  | error e => rw [hu] at h; exact absurd h (by simp)
  | ok us =>
  cases hr : pdFrameOfLists ((similarLists sd n).map (·.map (·.rent_per_square_meter)))
      newColumnsRents with
  | error e => rw [hu, hr] at h; exact absurd h (by simp)
  | ok rs =>
  rw [hu, hr] at h
  cases h
  obtain ⟨husval, huscond⟩ := pdFrameOfLists_ok hu
  obtain ⟨hrsval, _⟩ := pdFrameOfLists_ok hr
  constructor
  · subst husval hrsval
    have e1 : (((similarLists sd n).map (·.map (·.street))).map
          (padToLen newColumnsStreets.length)) =
        sd.map (fun s => padToLen 5 ((similarList sd n s).map (·.street))) := by
      rw [similarLists, List.map_map, List.map_map]
      rfl
    have e2 : (((similarLists sd n).map (·.map (·.rent_per_square_meter))).map
          (padToLen newColumnsRents.length)) =
        sd.map (fun s => padToLen 5 ((similarList sd n s).map (·.rent_per_square_meter))) := by
      rw [similarLists, List.map_map, List.map_map]
      rfl
    rw [e1, e2, map_zip_map_map]
  · rcases huscond with hemp | hml
    · left
      have := congrArg List.length hemp
      simpa [similarLists] using this
    · right
      rw [← maxLen_map_lengths (·.street) (similarLists sd n)]
      simpa using hml

lemma padToLen_length {α : Type} (w : Nat) (l : List α) (h : l.length ≤ w) :
    (padToLen w l).length = w := by
  simp only [padToLen, List.length_append, List.length_map, List.length_replicate]
  omega

lemma padToLen_take {α : Type} (w : Nat) (l : List α) :
    (padToLen w l).take l.length = l.map some := by
  rw [padToLen, show l.length = (l.map some).length from (List.length_map l some).symm,
    List.take_left]

lemma padToLen_drop {α : Type} (w : Nat) (l : List α) :
    (padToLen w l).drop l.length = List.replicate (w - l.length) none := by
  rw [padToLen, show l.length = (l.map some).length from (List.length_map l some).symm,
    List.drop_left]

/-- Claim C3 amended: whatever N is, a successful similar_rent_prices
call produces exactly five name columns and five price columns, named
by rank 1 to 5; each row holds five slots, the slots up to the length
of the row's similarity list are filled, and the slots beyond it hold
explicit nulls. -/
theorem claim3_amended_five_columns :
    ∀ (sd : List StreetRow) (n : Nat) (out : List UnpackedStreetRow),
      similarRentPrices sd n = .ok out →
      newColumnsStreets = ["most_similar_1", "most_similar_2", "most_similar_3",
          "most_similar_4", "most_similar_5"] ∧
      newColumnsRents = ["most_similar_rent_1", "most_similar_rent_2", "most_similar_rent_3",
          "most_similar_rent_4", "most_similar_rent_5"] ∧
      out.length = sd.length ∧
      ∀ r ∈ out, r.most_similar.length = 5 ∧ r.most_similar_rent.length = 5 ∧
        ∃ k, k ≤ 5 ∧
          (∀ x ∈ r.most_similar.take k, x.isSome = true) ∧
          (∀ x ∈ r.most_similar_rent.take k, x.isSome = true) ∧
          r.most_similar.drop k = List.replicate (5 - k) none ∧
          r.most_similar_rent.drop k = List.replicate (5 - k) none := by
  intro sd n out h
  obtain ⟨hval, hcond⟩ := similarRentPrices_ok h
  refine ⟨rfl, rfl, by rw [hval, List.length_map], ?_⟩
  intro r hr
  rw [hval] at hr
  simp only [List.mem_map] at hr
  obtain ⟨s, hs, rfl⟩ := hr
  have hk5 : (similarList sd n s).length ≤ 5 := by
    rcases hcond with rfl | hml
    · simp at hs
    · rw [← hml]
      exact le_maxLen _ _ (List.mem_map_of_mem (similarList sd n) hs)
  have hlen1 : ((similarList sd n s).map (·.street)).length ≤ 5 := by
    rw [List.length_map]; exact hk5
  have hlen2 : ((similarList sd n s).map (·.rent_per_square_meter)).length ≤ 5 := by
    rw [List.length_map]; exact hk5
  refine ⟨padToLen_length 5 _ hlen1, padToLen_length 5 _ hlen2,
    (similarList sd n s).length, hk5, ?_, ?_, ?_, ?_⟩
  · intro x hx
    rw [show (similarList sd n s).length = ((similarList sd n s).map (·.street)).length from
      (List.length_map _ _).symm, padToLen_take] at hx
    simp only [List.mem_map] at hx
    obtain ⟨y, _, rfl⟩ := hx
    rfl
  · intro x hx
    rw [show (similarList sd n s).length =
        ((similarList sd n s).map (·.rent_per_square_meter)).length from
      (List.length_map _ _).symm, padToLen_take] at hx
    simp only [List.mem_map] at hx
    obtain ⟨y, _, rfl⟩ := hx
    rfl
  · rw [show (similarList sd n s).length = ((similarList sd n s).map (·.street)).length from
      (List.length_map _ _).symm, padToLen_drop, List.length_map]
  · rw [show (similarList sd n s).length =
        ((similarList sd n s).map (·.rent_per_square_meter)).length from
      (List.length_map _ _).symm, padToLen_drop, List.length_map]

/-- Characterization of a successful get_street_aggregates call. -/
lemma getStreetAggregates_ok {t : List Listing} {n : Nat} {out : List StreetAggRow}
    (h : getStreetAggregates t n = .ok out) :
    ∃ us, similarRentPrices (streetTable t) n = .ok us ∧
      out = us.flatMap (mergeStreetRow t) := by
  unfold getStreetAggregates at h
  cases hsp : similarRentPrices (streetTable t) n with
  | error e => rw [hsp] at h; exact absurd h (by simp)
  | ok us => rw [hsp] at h; cases h; exact ⟨us, rfl, rfl⟩

/-- Claim C9: every row of a successful street aggregate reports, for
its street, the arithmetic means of rent_per_square_meter and
rent_without_expenses over exactly the street's year-2023 apartment
listings, and the count of exactly those listings. -/
theorem claim9_street_stats :
    ∀ (t : List Listing) (n : Nat) (out : List StreetAggRow),
      getStreetAggregates t n = .ok out →
      ∀ r ∈ out,
        t.filter (fun l => l.year == 2023 &&
            (l.rental_type == RentalType.apartment && l.street == r.street)) ≠ [] ∧
        r.rent_per_square_meter =
          ((t.filter (fun l => l.year == 2023 &&
              (l.rental_type == RentalType.apartment && l.street == r.street))).map
            (·.rent_per_square_meter)).sum /
          (((t.filter (fun l => l.year == 2023 &&
              (l.rental_type == RentalType.apartment && l.street == r.street))).length : ℚ)) ∧
        r.rent_without_expenses =
          ((t.filter (fun l => l.year == 2023 &&
              (l.rental_type == RentalType.apartment && l.street == r.street))).map
            (·.rent_without_expenses)).sum /
          (((t.filter (fun l => l.year == 2023 &&
              (l.rental_type == RentalType.apartment && l.street == r.street))).length : ℚ)) ∧
        r.count = (t.filter (fun l => l.year == 2023 &&
            (l.rental_type == RentalType.apartment && l.street == r.street))).length := by
  intro t n out h r hr
  obtain ⟨us, hsp, rfl⟩ := getStreetAggregates_ok h
  simp only [List.mem_flatMap] at hr
  obtain ⟨u, hu, hru⟩ := hr
  simp only [mergeStreetRow, List.mem_flatMap, List.mem_map, List.mem_filter] at hru
  obtain ⟨c, ⟨hcmem, hcstreet⟩, g, ⟨hgmem, hgstreet⟩, rfl⟩ := hru
  obtain ⟨husval, _⟩ := similarRentPrices_ok hsp
  rw [husval] at hu
  simp only [List.mem_map] at hu
  obtain ⟨s, hs, rfl⟩ := hu
  simp only [streetTable, List.mem_map] at hs
  obtain ⟨key, hkey, rfl⟩ := hs
  have hG : (streetFiltered t).filter (fun l => l.street == key) =
      t.filter (fun l => l.year == 2023 &&
        (l.rental_type == RentalType.apartment && l.street == key)) := by
    rw [streetFiltered, List.filter_filter, List.filter_filter]
    exact List.filter_congr fun a _ => by
      simp only [Bool.and_comm, Bool.and_left_comm, Bool.and_assoc]
  refine ⟨?_, ?_, ?_, ?_⟩
  · have hk2 : key ∈ (streetFiltered t).map (·.street) := by
      have := mem_sortedDedupStr.mp hkey
      simpa using this
    simp only [List.mem_map] at hk2
    obtain ⟨l, hl, hls⟩ := hk2
    refine List.ne_nil_of_mem (a := l) ?_
    rw [← hG]
    exact List.mem_filter.mpr ⟨hl, by simp [hls]⟩
  · show mean (((streetFiltered t).filter (fun l => l.street == key)).map
        (·.rent_per_square_meter)) = _
    rw [mean, List.length_map, hG]
  · show mean (((streetFiltered t).filter (fun l => l.street == key)).map
        (·.rent_without_expenses)) = _
    rw [mean, List.length_map, hG]
  · show c.2 = _
    simp only [streetCounts, List.mem_map] at hcmem
    obtain ⟨k2, _, rfl⟩ := hcmem
    have hk2 : k2 = key := by simpa using hcstreet
    show ((streetFiltered t).filter (fun l => l.street == k2)).length = _
    rw [hk2, hG]

section
attribute [local semireducible] Rat.add Rat.sub Rat.mul Rat.inv

/-- Claim C3 amended witness: on the six-street table with N = 5 the
unpacking succeeds and produces one output row per street. -/
theorem claim3_witness :
    (okRows (similarRentPrices (streetTable exTable6) 5)).length =
      (streetTable exTable6).length :=
  (claim3_amended_five_columns (streetTable exTable6) 5
    (okRows (similarRentPrices (streetTable exTable6) 5)) (by rfl)).2.2.1

/-- Claim C9 witness: on the six-street table the first output row's
count equals the number of its street's 2023 apartment listings. -/
theorem claim9_witness :
    ((okRows (getStreetAggregates exTable6 5)).getD 0 noRowS).count =
      (exTable6.filter (fun l => l.year == 2023 &&
        (l.rental_type == RentalType.apartment &&
          l.street == ((okRows (getStreetAggregates exTable6 5)).getD 0 noRowS).street))).length :=
  (claim9_street_stats exTable6 5 (okRows (getStreetAggregates exTable6 5)) (by rfl)
    ((okRows (getStreetAggregates exTable6 5)).getD 0 noRowS) (by decide)).2.2.2

end

/-! ### District aggregator: success condition -/

lemma districtAggregatesRun_isOk (td : List Listing) :
    (districtAggregatesRun td).isOk = true ↔
      ((rtTimeCombos td).length = 4 ∧ (rooms2023 td).length = 5) := by
  unfold districtAggregatesRun
  split_ifs with h1 h2
  · simp [Except.isOk, Except.toBool, h1]
  · simp [Except.isOk, Except.toBool, h1, h2]
  · exact ⟨fun _ => ⟨not_not.mp h1, not_not.mp h2⟩, fun _ => rfl⟩

/-- Two duplicate-free lists, one contained in the other, have equal
length exactly when the containment also holds the other way. -/
lemma nodup_length_eq_iff {α : Type} [DecidableEq α] {S U : List α}
    (hS : S.Nodup) (hU : U.Nodup) (hsub : ∀ x ∈ S, x ∈ U) :
    S.length = U.length ↔ ∀ u ∈ U, u ∈ S := by
  constructor
  · intro hlen u hu
    have h1 : S.toFinset ⊆ U.toFinset := fun x hx =>
      List.mem_toFinset.mpr (hsub x (List.mem_toFinset.mp hx))
    have hcard : U.toFinset.card ≤ S.toFinset.card := by
      rw [List.toFinset_card_of_nodup hS, List.toFinset_card_of_nodup hU, hlen]
    have heq := Finset.eq_of_subset_of_card_le h1 hcard
    exact List.mem_toFinset.mp (heq ▸ List.mem_toFinset.mpr hu)
  · intro hsup
    exact le_antisymm (hS.subperm hsub).length_le (hU.subperm hsup).length_le

lemma rtTimeCombos_addTime (t : List Listing) :
    rtTimeCombos (addTime t) =
      dedupKeepFirst (t.map (fun l => (l.rental_type, some (timeTag l.year)))) := by
  rw [rtTimeCombos, addTime, List.map_map]
  rfl

lemma rooms2023_addTime (t : List Listing) :
    rooms2023 (addTime t) =
      dedupKeepFirst ((t.filter (fun l => l.year == 2023)).map (·.rooms)) := by
  rw [rooms2023, addTime, List.filter_map, List.map_map]
  rfl

lemma timeTag_eq_now {y : Int} : timeTag y = "now" ↔ y = 2023 := by
  by_cases hy : y = 2023 <;> simp [timeTag, hy]

lemma timeTag_eq_then {y : Int} : timeTag y = "then" ↔ ¬ y = 2023 := by
  by_cases hy : y = 2023 <;> simp [timeTag, hy]

lemma mem_rtTimeCombos_iff (t : List Listing) (rt : RentalType) (s : String) :
    (rt, some s) ∈ rtTimeCombos (addTime t) ↔
      ∃ l ∈ t, l.rental_type = rt ∧ timeTag l.year = s := by
  rw [rtTimeCombos_addTime, mem_dedupKeepFirst]
  simp only [List.mem_map, Prod.mk.injEq, Option.some.injEq]

lemma mem_rooms2023_iff (t : List Listing) (r : Rooms) :
    r ∈ rooms2023 (addTime t) ↔ ∃ l ∈ t, l.year = 2023 ∧ l.rooms = r := by
  rw [rooms2023_addTime, mem_dedupKeepFirst]
  simp only [List.mem_map, List.mem_filter]
  constructor
  · rintro ⟨l, ⟨hl, hy⟩, hr⟩
    exact ⟨l, hl, by simpa using hy, hr⟩
  · rintro ⟨l, hl, hy, hr⟩
    exact ⟨l, ⟨hl, by simpa using hy⟩, hr⟩

set_option maxHeartbeats 2000000 in
/-- Claim C10: the district aggregator succeeds exactly when all four
(rental_type, time) combinations occur in the table and all five rooms
buckets occur among its 2023 listings; otherwise one of the hard-coded
column renames raises. -/
theorem claim10_success_iff_complete :
    ∀ t : List Listing,
      ((getDistrictAggregates t).1).isOk = true ↔
      ((∃ l ∈ t, l.rental_type = RentalType.apartment ∧ l.year = 2023) ∧
       (∃ l ∈ t, l.rental_type = RentalType.apartment ∧ l.year ≠ 2023) ∧
       (∃ l ∈ t, l.rental_type = RentalType.room ∧ l.year = 2023) ∧
       (∃ l ∈ t, l.rental_type = RentalType.room ∧ l.year ≠ 2023) ∧
       (∀ r : Rooms, ∃ l ∈ t, l.year = 2023 ∧ l.rooms = r)) := by
  intro t
  show (districtAggregatesRun (addTime t)).isOk = true ↔ _
  rw [districtAggregatesRun_isOk]
  have hcombos : (rtTimeCombos (addTime t)).length = 4 ↔
      ((∃ l ∈ t, l.rental_type = RentalType.apartment ∧ l.year = 2023) ∧
       (∃ l ∈ t, l.rental_type = RentalType.apartment ∧ l.year ≠ 2023) ∧
       (∃ l ∈ t, l.rental_type = RentalType.room ∧ l.year = 2023) ∧
       (∃ l ∈ t, l.rental_type = RentalType.room ∧ l.year ≠ 2023)) := by
    have hS : (rtTimeCombos (addTime t)).Nodup := by
      rw [rtTimeCombos_addTime]; exact dedupKeepFirst_nodup _
    have hU : ([(RentalType.apartment, some "now"), (RentalType.apartment, some "then"),
        (RentalType.room, some "now"), (RentalType.room, some "then")] :
        List (RentalType × Option String)).Nodup := by decide
    have hsub : ∀ x ∈ rtTimeCombos (addTime t),
        x ∈ [(RentalType.apartment, some "now"), (RentalType.apartment, some "then"),
          (RentalType.room, some "now"), (RentalType.room, some "then")] := by
      intro x hx
      rw [rtTimeCombos_addTime, mem_dedupKeepFirst] at hx
      simp only [List.mem_map] at hx
      obtain ⟨l, _, rfl⟩ := hx
      cases hrt : l.rental_type <;> by_cases hy : l.year = 2023 <;>
        simp [hrt, timeTag, hy]
    rw [show (4 : Nat) = ([(RentalType.apartment, some "now"),
        (RentalType.apartment, some "then"), (RentalType.room, some "now"),
        (RentalType.room, some "then")] :
        List (RentalType × Option String)).length from rfl,
      nodup_length_eq_iff hS hU hsub]
    constructor
    · intro h
      refine ⟨?_, ?_, ?_, ?_⟩
      · have := (mem_rtTimeCombos_iff t RentalType.apartment "now").mp (h _ (by simp))
        obtain ⟨l, hl, h1, h2⟩ := this
        exact ⟨l, hl, h1, timeTag_eq_now.mp h2⟩
      · have := (mem_rtTimeCombos_iff t RentalType.apartment "then").mp (h _ (by simp))
        obtain ⟨l, hl, h1, h2⟩ := this
        exact ⟨l, hl, h1, timeTag_eq_then.mp h2⟩
      · have := (mem_rtTimeCombos_iff t RentalType.room "now").mp (h _ (by simp))
        obtain ⟨l, hl, h1, h2⟩ := this
        exact ⟨l, hl, h1, timeTag_eq_now.mp h2⟩
      · have := (mem_rtTimeCombos_iff t RentalType.room "then").mp (h _ (by simp))
        obtain ⟨l, hl, h1, h2⟩ := this
        exact ⟨l, hl, h1, timeTag_eq_then.mp h2⟩
    · rintro ⟨⟨l1, hl1, ha1, hy1⟩, ⟨l2, hl2, ha2, hy2⟩, ⟨l3, hl3, ha3, hy3⟩,
        ⟨l4, hl4, ha4, hy4⟩⟩ u hu
      have h1 := (mem_rtTimeCombos_iff t RentalType.apartment "now").mpr
        ⟨l1, hl1, ha1, timeTag_eq_now.mpr hy1⟩
      have h2 := (mem_rtTimeCombos_iff t RentalType.apartment "then").mpr
        ⟨l2, hl2, ha2, timeTag_eq_then.mpr hy2⟩
      have h3 := (mem_rtTimeCombos_iff t RentalType.room "now").mpr
        ⟨l3, hl3, ha3, timeTag_eq_now.mpr hy3⟩
      have h4 := (mem_rtTimeCombos_iff t RentalType.room "then").mpr
        ⟨l4, hl4, ha4, timeTag_eq_then.mpr hy4⟩
      rcases List.mem_cons.mp hu with rfl | hu
      · exact h1
      rcases List.mem_cons.mp hu with rfl | hu
      · exact h2
      rcases List.mem_cons.mp hu with rfl | hu
      · exact h3
      rcases List.mem_cons.mp hu with rfl | hu
      · exact h4
      simp at hu
  have hrooms : (rooms2023 (addTime t)).length = 5 ↔
      (∀ r : Rooms, ∃ l ∈ t, l.year = 2023 ∧ l.rooms = r) := by
    have hS : (rooms2023 (addTime t)).Nodup := by
      rw [rooms2023_addTime]; exact dedupKeepFirst_nodup _
    have hU : ([Rooms.one, Rooms.two, Rooms.three, Rooms.four, Rooms.plus4]).Nodup := by
      decide
    have hsub : ∀ x ∈ rooms2023 (addTime t),
        x ∈ [Rooms.one, Rooms.two, Rooms.three, Rooms.four, Rooms.plus4] := by
      intro x _
      cases x <;> decide
    rw [show (5 : Nat) =
        ([Rooms.one, Rooms.two, Rooms.three, Rooms.four, Rooms.plus4]).length from rfl,
      nodup_length_eq_iff hS hU hsub]
    constructor
    · intro h r
      exact (mem_rooms2023_iff t r).mp (h r (by cases r <;> decide))
    · intro h u _
      exact (mem_rooms2023_iff t u).mpr (h u)
  rw [hcombos, hrooms]
  tauto

/-! ### District aggregator: structure of the output rows -/

@[simp] lemma mkPriceCols_district (td : List Listing) (d : String) :
    (mkPriceCols td d).district = d := rfl

@[simp] lemma mkCountCols_district (td : List Listing) (d : String) :
    (mkCountCols td d).district = d := rfl

@[simp] lemma mkDistrictRow_district (pc : PriceCols × CountCols) (g : String) :
    (mkDistrictRow pc g).district = pc.1.district := rfl

lemma districtAggregatesRun_ok {td : List Listing} {rows : List DistrictRow}
    (h : districtAggregatesRun td = .ok rows) : rows = districtRowsOf td := by
  unfold districtAggregatesRun at h
  split_ifs at h
  cases h
  rfl

lemma districtsOf_addTime (t : List Listing) : districtsOf (addTime t) = districtsOf t := by
  rw [districtsOf, addTime, List.map_map]
  rfl

lemma d2023Of_addTime (t : List Listing) : d2023Of (addTime t) = d2023Of t := by
  rw [d2023Of, addTime, List.filter_map, List.map_map]
  rfl

lemma mem_districtsOf {td : List Listing} {d : String} :
    d ∈ districtsOf td ↔ ∃ l ∈ td, l.district = d := by
  rw [districtsOf, mem_sortedDedupStr]
  simp [List.mem_map]

lemma mem_d2023Of {td : List Listing} {d : String} :
    d ∈ d2023Of td ↔ ∃ l ∈ td, l.year = 2023 ∧ l.district = d := by
  rw [d2023Of, mem_sortedDedupStr]
  constructor
  · intro h
    simp only [List.mem_map, List.mem_filter] at h
    obtain ⟨l, ⟨hl, hy⟩, hd⟩ := h
    exact ⟨l, hl, by simpa using hy, hd⟩
  · rintro ⟨l, hl, hy, hd⟩
    simp only [List.mem_map, List.mem_filter]
    exact ⟨l, ⟨hl, by simpa using hy⟩, hd⟩

lemma d2023Of_subset_districtsOf {td : List Listing} {d : String}
    (h : d ∈ d2023Of td) : d ∈ districtsOf td := by
  obtain ⟨l, hl, _, hd⟩ := mem_d2023Of.mp h
  exact mem_districtsOf.mpr ⟨l, hl, hd⟩

lemma priceRowsOf_map_district (td : List Listing) :
    (priceRowsOf td).map (·.district) = districtsOf td := by
  rw [priceRowsOf, List.map_map]
  exact List.map_id _

lemma countRowsOf_map_district (td : List Listing) :
    (countRowsOf td).map (·.district) = d2023Of td := by
  rw [countRowsOf, List.map_map]
  exact List.map_id _

lemma filter_flatMap_blocks {α β : Type} (l : List α) (F : α → List β) (p : β → Bool) :
    (l.flatMap F).filter p = l.flatMap (fun a => (F a).filter p) := by
  induction l with
  | nil => rfl
  | cons a as ih => simp only [List.flatMap_cons, List.filter_append, ih]

/-- A flat map whose blocks are empty off one key collapses, on a
duplicate-free list, to that key's block. -/
lemma flatMap_delta {α β : Type} [DecidableEq α] {l : List α} (hl : l.Nodup)
    (d : α) (H : α → List β) :
    (l.flatMap (fun a => if a == d then H a else [])) = if d ∈ l then H d else [] := by
  induction l with
  | nil => simp
  | cons a as ih =>
    simp only [List.nodup_cons] at hl
    rw [List.flatMap_cons, ih hl.2]
    by_cases had : a = d
    · subst had
      simp [hl.1]
    · simp [had, List.mem_cons, Ne.symm had]

/-- drop_duplicates commutes with a row filter. -/
lemma filter_dedupKeepFirst {α : Type} [DecidableEq α] (p : α → Bool) (l : List α) :
    (dedupKeepFirst l).filter p = dedupKeepFirst (l.filter p) := by
  induction l with
  | nil => rfl
  | cons a as ih =>
    rw [dedupKeepFirst]
    by_cases hpa : p a = true
    · rw [List.filter_cons_of_pos hpa, List.filter_comm, ih,
        List.filter_cons_of_pos hpa, dedupKeepFirst]
    · rw [List.filter_cons_of_neg (by simpa using hpa), List.filter_comm, ih,
        List.filter_cons_of_neg (by simpa using hpa)]
      apply List.filter_eq_self.mpr
      intro x hx
      have hxp : p x = true := List.of_mem_filter (mem_dedupKeepFirst.mp hx)
      by_cases hxa : x = a
      · rw [hxa] at hxp; exact absurd hxp hpa
      · simp [hxa]

lemma districtsOf_nodup (td : List Listing) : (districtsOf td).Nodup :=
  sortedDedupStr_nodup _

lemma d2023Of_nodup (td : List Listing) : (d2023Of td).Nodup :=
  sortedDedupStr_nodup _

lemma flatMap_ite_const {α β : Type} (c : Bool) (l : List α) (F : α → List β) :
    (l.flatMap (fun a => if c then F a else [])) = if c then l.flatMap F else [] := by
  cases c <;> simp

/-- The rows of the district aggregate carrying a given district key:
exactly the key's own merged price/count data repeated once per
de-duplicated (district, geometry) pair, and nothing when the district
has no 2023 listing (the inner join dropped it). -/
lemma districtRowsOf_filter (td : List Listing) (d : String) :
    (districtRowsOf td).filter (fun r => r.district == d) =
      if d ∈ d2023Of td then
        ((geoPairs td).filter (fun g => g.1 == d)).map
          (fun g => mkDistrictRow (mkPriceCols td d, mkCountCols td d) g.2)
      else [] := by
  rw [districtRowsOf, filter_flatMap_blocks]
  have hblock : ∀ pc : PriceCols × CountCols,
      ((((geoPairs td).filter (fun g => g.1 == pc.1.district)).map
        (fun g => mkDistrictRow pc g.2)).filter (fun r => r.district == d)) =
      if pc.1.district == d then
        ((geoPairs td).filter (fun g => g.1 == pc.1.district)).map
          (fun g => mkDistrictRow pc g.2)
      else [] := by
    intro pc
    rw [List.filter_map, show ((fun r : DistrictRow => r.district == d) ∘
        (fun g : String × String => mkDistrictRow pc g.2)) =
      (fun _ => pc.1.district == d) from rfl]
    cases hd : (pc.1.district == d)
    · simp [hd]
    · simp [hd]
  simp only [hblock]
  rw [mergedOf, List.flatMap_assoc, priceRowsOf, List.flatMap_map]
  simp only [List.flatMap_map, mkPriceCols_district]
  simp only [flatMap_ite_const]
  rw [flatMap_delta (districtsOf_nodup td) d]
  have hcount : ((countRowsOf td).filter (fun cr => cr.district == d)) =
      if d ∈ d2023Of td then [mkCountCols td d] else [] := by
    rw [countRowsOf, List.filter_map, show ((fun cr : CountCols => cr.district == d) ∘
        mkCountCols td) = (fun x => x == d) from rfl,
      filter_beq_of_nodup (d2023Of td) (d2023Of_nodup td) d]
    by_cases h23 : d ∈ d2023Of td
    · simp [h23]
    · simp [h23]
  by_cases h23 : d ∈ d2023Of td
  · rw [if_pos (d2023Of_subset_districtsOf h23), hcount, if_pos h23, if_pos h23]
    simp
  · rw [if_neg h23]
    by_cases hD : d ∈ districtsOf td
    · rw [if_pos hD, hcount, if_neg h23]
      simp
    · rw [if_neg hD]

/-- Claim C8: the merges of the district aggregator have inner-join
semantics.  A district key appears in the output exactly when it is in
both merged tables, which for this pipeline means: it has a year-2023
listing (the room-count table only covers such districts, while the
price table covers all districts, so a district with only pre-2023
listings is silently dropped).  Moreover the rows a district keeps are
exactly its own merged price, count and geometry data, so dropped keys
do not disturb them. -/
theorem claim8_inner_join_drops :
    ∀ (t : List Listing) (rows : List DistrictRow),
      (getDistrictAggregates t).1 = .ok rows →
      ∀ d : String,
        (d ∈ rows.map (·.district) ↔ ∃ l ∈ t, l.district = d ∧ l.year = 2023) ∧
        rows.filter (fun r => r.district == d) =
          (if d ∈ d2023Of (addTime t) then
            ((geoPairs (addTime t)).filter (fun g => g.1 == d)).map
              (fun g => mkDistrictRow
                (mkPriceCols (addTime t) d, mkCountCols (addTime t) d) g.2)
          else []) := by
  intro t rows h d
  have hrows : rows = districtRowsOf (addTime t) := districtAggregatesRun_ok h
  subst hrows
  refine ⟨?_, districtRowsOf_filter _ d⟩
  constructor
  · intro hd
    simp only [districtRowsOf, List.mem_map, List.mem_flatMap, List.mem_filter] at hd
    obtain ⟨r, ⟨pc, hpc, g, ⟨hg, hgd⟩, rfl⟩, hrd⟩ := hd
    simp only [mergedOf, List.mem_flatMap, List.mem_map, List.mem_filter] at hpc
    obtain ⟨pr, hpr, cr, ⟨hcr, hcrd⟩, rfl⟩ := hpc
    simp only [countRowsOf, List.mem_map] at hcr
    obtain ⟨d2, hd2, rfl⟩ := hcr
    have hd2d : d2 = d := by
      have h1 : d2 = pr.district := by simpa using hcrd
      have h2 : pr.district = d := by simpa using hrd
      rw [h1, h2]
    subst hd2d
    obtain ⟨l, hl, hy, hld⟩ := mem_d2023Of.mp hd2
    simp only [addTime, List.mem_map] at hl
    obtain ⟨l0, hl0, rfl⟩ := hl
    exact ⟨l0, hl0, by simpa using hld, by simpa using hy⟩
  · rintro ⟨l0, hl0, hld, hy⟩
    have hd23 : d ∈ d2023Of (addTime t) := mem_d2023Of.mpr
      ⟨setTime l0, List.mem_map_of_mem setTime hl0, by simpa using hy, by simpa using hld⟩
    have hdD : d ∈ districtsOf (addTime t) := d2023Of_subset_districtsOf hd23
    have hgeo : (l0.district, l0.geometry) ∈ geoPairs (addTime t) := by
      rw [geoPairs, mem_dedupKeepFirst]
      have h1 : setTime l0 ∈ addTime t := by
        rw [addTime]
        exact List.mem_map_of_mem setTime hl0
      exact List.mem_map_of_mem (fun l => (l.district, l.geometry)) h1
    have hmerged : (mkPriceCols (addTime t) d, mkCountCols (addTime t) d) ∈
        mergedOf (addTime t) := by
      simp only [mergedOf, List.mem_flatMap, List.mem_map, List.mem_filter,
        priceRowsOf, countRowsOf]
      exact ⟨mkPriceCols (addTime t) d, ⟨d, hdD, rfl⟩,
        mkCountCols (addTime t) d, ⟨⟨d, hd23, rfl⟩, by simp⟩, rfl⟩
    simp only [districtRowsOf, List.mem_map, List.mem_flatMap, List.mem_filter]
    refine ⟨mkDistrictRow (mkPriceCols (addTime t) d, mkCountCols (addTime t) d)
        l0.geometry,
      ⟨(mkPriceCols (addTime t) d, mkCountCols (addTime t) d), hmerged,
        (l0.district, l0.geometry), ⟨hgeo, by simpa using hld⟩, rfl⟩, by simp⟩

lemma geoPairs_nodup (td : List Listing) : (geoPairs td).Nodup :=
  dedupKeepFirst_nodup _

/-- When every district of the table carries one geometry string, two
geometry pairs with the same district key are equal. -/
lemma geoPairs_unique (t : List Listing)
    (hgeo : ∀ l1 ∈ t, ∀ l2 ∈ t, l1.district = l2.district → l1.geometry = l2.geometry)
    (k : String) :
    ∀ x ∈ geoPairs (addTime t), ∀ y ∈ geoPairs (addTime t),
      (x.1 == k) = true → (y.1 == k) = true → x = y := by
  intro x hx y hy hxk hyk
  rw [geoPairs, mem_dedupKeepFirst] at hx hy
  rw [addTime, List.map_map] at hx hy
  simp only [List.mem_map] at hx hy
  obtain ⟨lx, hlx, rfl⟩ := hx
  obtain ⟨ly, hly, rfl⟩ := hy
  have hd : lx.district = ly.district := by
    have h1 : lx.district = k := by simpa using hxk
    have h2 : ly.district = k := by simpa using hyk
    rw [h1, h2]
  have hg := hgeo lx hlx ly hly hd
  show (lx.district, lx.geometry) = (ly.district, ly.geometry)
  rw [hd, hg]

/-- Claim C6 amended: when every district's listings carry a single
geometry string, the district aggregate has no duplicated district key,
hence exactly one row per retained district. -/
theorem claim6_amended_unique_geometry :
    ∀ t : List Listing,
      (∀ l1 ∈ t, ∀ l2 ∈ t, l1.district = l2.district → l1.geometry = l2.geometry) →
      ∀ rows : List DistrictRow, (getDistrictAggregates t).1 = .ok rows →
      (rows.map (·.district)).Nodup := by
  intro t hgeo rows h
  have hrows : rows = districtRowsOf (addTime t) := districtAggregatesRun_ok h
  subst hrows
  have hm : ((mergedOf (addTime t)).map
      (fun pc : PriceCols × CountCols => pc.1.district)).Nodup := by
    rw [mergedOf]
    exact nodup_join _ _ (fun pr : PriceCols => pr.district)
      (fun cr : CountCols => cr.district) (fun pr cr => (pr, cr))
      (fun pc => pc.1.district)
      (by rw [priceRowsOf_map_district]; exact districtsOf_nodup _)
      (fun b => length_filter_key_le_one _ _
        (by rw [countRowsOf_map_district]; exact d2023Of_nodup _) _)
      (fun b c => rfl)
  rw [districtRowsOf]
  exact nodup_join _ _ (fun pc : PriceCols × CountCols => pc.1.district)
    (fun g : String × String => g.1) (fun pc g => mkDistrictRow pc g.2)
    (fun r : DistrictRow => r.district)
    hm
    (fun pc => length_filter_le_one_of_eq _ _ (geoPairs_nodup _)
      (geoPairs_unique t hgeo pc.1.district))
    (fun pc g => rfl)

section
attribute [local semireducible] Rat.add Rat.sub Rat.mul Rat.inv

/-- Claim C6 amended witness: on exTable2, whose districts each carry
one geometry string, the district column of the output has no
duplicates. -/
theorem claim6_witness :
    ((okRows (getDistrictAggregates exTable2).1).map (·.district)).Nodup :=
  claim6_amended_unique_geometry exTable2 (by decide)
    (okRows (getDistrictAggregates exTable2).1) (by rfl)

/-- Claim C8 witness: district C of exTable2 has listings but none from
2023, so its key is in the price table but not in the room-count table,
and its row block in the output is empty: the key was silently
dropped. -/
theorem claim8_witness :
    (okRows (getDistrictAggregates exTable2).1).filter (fun r => r.district == "C") =
      (if "C" ∈ d2023Of (addTime exTable2) then
        ((geoPairs (addTime exTable2)).filter (fun g => g.1 == "C")).map
          (fun g => mkDistrictRow
            (mkPriceCols (addTime exTable2) "C", mkCountCols (addTime exTable2) "C") g.2)
      else []) :=
  (claim8_inner_join_drops exTable2 (okRows (getDistrictAggregates exTable2).1)
    (by rfl) "C").2

end

end Aarhus
